import Mathlib

/-!
Verification of the completion logic of `src/api/completions.py` and
`src/api/index.py` (function `get_completions`) against its specification.

The Python code is shallowly embedded: strings are Lean `String`
(sequences of code points, as in Python), Python `int` is Lean `Int`,
and each Python string operation used by the source is modelled by an
executable Lean function below (`pySliceTo` for `s[:c]`, `pyStrip` for
`str.strip()`, `pyLstrip` for `str.lstrip()`, `pySplit` for
`str.split(sep)` with a one-character separator, `pyStartsWith` for
`str.startswith`, `pyIn` for the substring test `a in b`).

The call `yaml.safe_load(full_content)` (lines 43-46 of
`completions.py`) is an external library at the boundary of the core;
its outcome is passed to the embedded `get_completions` as an explicit
argument `existing_config : PyObj`: the parsed document when parsing
succeeds, and `PyObj.pydict []` (Python `{}`) when the document is blank
or parsing raises, exactly as the `try/except` in the source produces.
`PyObj` models the values PyYAML can return (None, bool, int, str,
list, dict with string keys) and `pyStr`/`pyStrTop` model Python's
`repr`/`str` on them, which is all the source ever does with the parsed
document (`"server" not in str(existing_config)`).
-/

/-- Python whitespace characters recognised by `str.strip` (ASCII subset;
the documents at issue are ASCII). -/
def isPySpace (c : Char) : Bool :=
  c = ' ' || c = '\t' || c = '\n' || c = '\r' || c = '\x0b' || c = '\x0c'

/-- Python `s.lstrip()`. -/
def pyLstrip (s : String) : String :=
  ⟨s.data.dropWhile isPySpace⟩

/-- Python `s.strip()`. -/
def pyStrip (s : String) : String :=
  ⟨((s.data.dropWhile isPySpace).reverse.dropWhile isPySpace).reverse⟩

/-- Clamp the end index of a Python slice `s[:c]` (length `n`) to `0..n`:
a negative index counts from the end, then the result is clamped. -/
def pyClampTo (n : Nat) (c : Int) : Nat :=
  (max 0 (min (if c < 0 then c + n else c) (n : Int))).toNat

/-- Python `s[:c]` for an arbitrary integer `c`. -/
def pySliceTo (s : String) (c : Int) : String :=
  ⟨s.data.take (pyClampTo s.length c)⟩

/-- The segment of `s` before the first occurrence of `sep`
(the whole string when `sep` does not occur): Python `s.split(sep)[0]`
for a one-character separator. -/
def beforeFirst (sep : Char) (s : String) : String :=
  ⟨s.data.takeWhile (fun c => c ≠ sep)⟩

/-- Split a character list at every occurrence of `sep`
(Python `str.split` semantics: `"".split(sep) = [""]`,
a trailing separator yields a trailing empty segment). -/
def splitCharList (sep : Char) : List Char → List (List Char)
  | [] => [[]]
  | c :: rest =>
    if c = sep then [] :: splitCharList sep rest
    else
      match splitCharList sep rest with
      | [] => [[c]]
      | g :: gs => (c :: g) :: gs

/-- Python `s.split(sep)` for a one-character separator. -/
def pySplit (sep : Char) (s : String) : List String :=
  (splitCharList sep s.data).map String.mk

/-- Python `s.startswith(t)`. -/
def pyStartsWith (s t : String) : Bool :=
  t.data.isPrefixOf s.data

/-- Is `pat` a contiguous sublist of the list? -/
def subList (pat : List Char) : List Char → Bool
  | [] => pat.isEmpty
  | c :: rest => pat.isPrefixOf (c :: rest) || subList pat rest

/-- Python substring test `pat in s`. -/
def pyIn (pat s : String) : Bool :=
  subList pat.data s.data

/-- Values producible by `yaml.safe_load` (string keys only, which is
all the documents at issue use). -/
inductive PyObj where
  | pynone : PyObj
  | pybool : Bool → PyObj
  | pyint : Int → PyObj
  | pystr : String → PyObj
  | pylist : List PyObj → PyObj
  | pydict : List (String × PyObj) → PyObj

mutual

/-- Python `repr` of a parsed value (string escaping is not modelled;
the values at issue contain no quotes or escapes). -/
def pyStr : PyObj → String
  | .pynone => "None"
  | .pybool true => "True"
  | .pybool false => "False"
  | .pyint n => toString n
  | .pystr s => "'" ++ s ++ "'"
  | .pylist xs => "[" ++ pyStrList xs ++ "]"
  | .pydict kvs => "\x7b" ++ pyStrDict kvs ++ "\x7d"

/-- Comma-separated `repr`s of the elements of a Python list. -/
def pyStrList : List PyObj → String
  | [] => ""
  | [x] => pyStr x
  | x :: xs => pyStr x ++ ", " ++ pyStrList xs

/-- Comma-separated `'key': repr(value)` pairs of a Python dict. -/
def pyStrDict : List (String × PyObj) → String
  | [] => ""
  | [(k, v)] => "'" ++ k ++ "': " ++ pyStr v
  | (k, v) :: kvs => "'" ++ k ++ "': " ++ pyStr v ++ ", " ++ pyStrDict kvs

end

/-- Python `str` of a parsed value: like `repr`, except that a top-level
string is returned without quotes. -/
def pyStrTop : PyObj → String
  | .pystr s => s
  | o => pyStr o

/-- One completion dict as built by `get_completions`: every dict the
source constructs populates all five fields, so `detail` and
`documentation` are plain strings here. -/
structure Completion where
  label : String
  kind : String
  detail : String
  insertText : String
  documentation : String
deriving DecidableEq

/-- The labels of a list of completions. -/
def labels (cs : List Completion) : List String :=
  cs.map Completion.label

/-- `text_before_cursor = line[:cursor_position].strip()`
(completions.py line 37). -/
def textBeforeCursor (line : String) (cursor_position : Int) : String :=
  pyStrip (pySliceTo line cursor_position)

/-- `leading_spaces = len(line) - len(line.lstrip())`
(completions.py line 40). -/
def leadingSpaces (line : String) : Nat :=
  line.length - (pyLstrip line).length

namespace CompletionsPy

/-- The `server` block suggestion of the empty-prefix root branch
(completions.py lines 52-61). -/
def serverBlockItem : Completion :=
  { label := "server", kind := "property",
    detail := "Server configuration block",
    insertText := "server:\n  host: \"127.0.0.1\"\n  port: 3000\n  use_ssl: true",
    documentation := "Configure the web server settings including host, port, and SSL" }

/-- The `logging` block suggestion of the empty-prefix root branch
(completions.py lines 62-71). -/
def loggingBlockItem : Completion :=
  { label := "logging", kind := "property",
    detail := "Logging configuration block",
    insertText := "logging:\n  level: \"debug\"\n  file: \"./debug.log\"",
    documentation := "Configure logging settings including level and output file" }

/-- The `server` suggestion of the `startswith("s")` root branch
(completions.py lines 72-81; its documentation string is shorter). -/
def serverBlockItemS : Completion :=
  { label := "server", kind := "property",
    detail := "Server configuration block",
    insertText := "server:\n  host: \"127.0.0.1\"\n  port: 3000\n  use_ssl: true",
    documentation := "Configure the web server settings" }

/-- The `logging` suggestion of the `startswith("l")` root branch
(completions.py lines 82-91). -/
def loggingBlockItemL : Completion :=
  { label := "logging", kind := "property",
    detail := "Logging configuration block",
    insertText := "logging:\n  level: \"debug\"\n  file: \"./debug.log\"",
    documentation := "Configure logging settings" }

/-- The `host` suggestion (completions.py lines 109-118). -/
def hostItem : Completion :=
  { label := "host", kind := "property",
    detail := "string - Hostname or IP address",
    insertText := "host: \"127.0.0.1\"",
    documentation := "The hostname or IP address to bind to" }

/-- The `port` suggestion (completions.py lines 119-128). -/
def portItem : Completion :=
  { label := "port", kind := "property",
    detail := "integer - Port number",
    insertText := "port: 3000",
    documentation := "The port number (1-65535)" }

/-- The `use_ssl` suggestion (completions.py lines 129-138). -/
def useSslItem : Completion :=
  { label := "use_ssl", kind := "property",
    detail := "boolean - Enable SSL",
    insertText := "use_ssl: true",
    documentation := "Whether to enable SSL/TLS encryption" }

/-- The `level` suggestion (completions.py lines 144-153). -/
def levelItem : Completion :=
  { label := "level", kind := "property",
    detail := "enum - Log level",
    insertText := "level: \"debug\"",
    documentation := "Log level: debug, info, warn, error" }

/-- The `file` suggestion (completions.py lines 154-163). -/
def fileItem : Completion :=
  { label := "file", kind := "property",
    detail := "string - Log file path",
    insertText := "file: \"./debug.log\"",
    documentation := "Path to the log output file" }

/-- The `true` value suggestion (completions.py lines 172-178). -/
def trueItem : Completion :=
  { label := "true", kind := "value", detail := "Enable SSL",
    insertText := "true", documentation := "Enable SSL/TLS" }

/-- The `false` value suggestion (completions.py lines 179-185). -/
def falseItem : Completion :=
  { label := "false", kind := "value", detail := "Disable SSL",
    insertText := "false", documentation := "Disable SSL/TLS" }

/-- One iteration of the loop over log levels (completions.py
lines 190-199, with its f-strings). -/
def levelValueItem (level : String) : Completion :=
  { label := level, kind := "value",
    detail := "Log level: " ++ level,
    insertText := level,
    documentation := "Set logging level to " ++ level }

/-- The four value suggestions of the `level` branch
(completions.py lines 189-199). -/
def levelItems : List Completion :=
  ["debug", "info", "warn", "error"].map levelValueItem

/-- Root-level branch, `leading_spaces == 0` (completions.py
lines 49-91): the empty-prefix case suppresses a root key exactly when
its name occurs in `str(existing_config)`; otherwise the branch tests
only `startswith("s")` and `startswith("l")`. -/
def rootKeyCompletions (tbc : String) (existing_config : PyObj) : List Completion :=
  if tbc = "" then
    (if pyIn "server" (pyStrTop existing_config) then [] else [serverBlockItem]) ++
    (if pyIn "logging" (pyStrTop existing_config) then [] else [loggingBlockItem])
  else if pyStartsWith tbc "s" then [serverBlockItemS]
  else if pyStartsWith tbc "l" then [loggingBlockItemL]
  else []

/-- The loop over `server_keys = ["host", "port", "use_ssl"]`
(completions.py lines 106-138). -/
def serverChildCompletions (tbc : String) : List Completion :=
  (if tbc = "" || pyStartsWith "host" tbc then [hostItem] else []) ++
  (if tbc = "" || pyStartsWith "port" tbc then [portItem] else []) ++
  (if tbc = "" || pyStartsWith "use_ssl" tbc then [useSslItem] else [])

/-- The loop over `logging_keys = ["level", "file"]`
(completions.py lines 141-163). -/
def loggingChildCompletions (tbc : String) : List Completion :=
  (if tbc = "" || pyStartsWith "level" tbc then [levelItem] else []) ++
  (if tbc = "" || pyStartsWith "file" tbc then [fileItem] else [])

/-- The backward scan `for i in range(line_number - 1, -1, -1)`
(completions.py lines 98-103), already restricted to the indices
`i < len(lines)` that the guard admits: `scanParent lines n` examines
indices `n-1, n-2, ..., 0` and returns the stripped text before the
first `:` of the first line that is non-empty, does not start with a
space character, and contains a `:`. -/
def scanParent (lines : List String) : Nat → Option String
  | 0 => Option.none
  | i + 1 =>
    if lines.getD i "" ≠ "" && !(pyStartsWith (lines.getD i "") " ")
        && pyIn ":" (lines.getD i "") then
      Option.some (pyStrip (beforeFirst ':' (lines.getD i "")))
    else scanParent lines i

/-- `parent_key` as computed at completions.py lines 96-103: split the
document into lines and scan upward from `line_number - 1`; indices at
or beyond `len(lines)` are skipped by the `i < len(lines)` guard, so the
scan effectively starts at `min(line_number, len(lines)) - 1`. -/
def parentKey (full_content : String) (line_number : Int) : Option String :=
  scanParent (pySplit '\n' full_content)
    (min line_number ((pySplit '\n' full_content).length : Int)).toNat

/-- The key-suggestion phase (completions.py lines 48-163): the root
branch at `leading_spaces == 0`, the child branch at
`leading_spaces == 2` dispatching on `parent_key`, nothing otherwise. -/
def keyCompletions (lead : Nat) (tbc : String) (full_content : String)
    (line_number : Int) (existing_config : PyObj) : List Completion :=
  if lead = 0 then rootKeyCompletions tbc existing_config
  else if lead = 2 then
    match parentKey full_content line_number with
    | Option.some k =>
      if k = "server" then serverChildCompletions tbc
      else if k = "logging" then loggingChildCompletions tbc
      else []
    | Option.none => []
  else []

/-- `key = text_before_cursor.split(":")[0].strip()`
(completions.py line 167). -/
def splitKey (tbc : String) : String :=
  pyStrip (beforeFirst ':' tbc)

/-- The value-suggestion phase, `":" in text_before_cursor`
(completions.py lines 166-199). -/
def valueCompletions (tbc : String) : List Completion :=
  if pyIn ":" tbc then
    if splitKey tbc = "use_ssl" then [trueItem, falseItem]
    else if splitKey tbc = "level" then levelItems
    else []
  else []

/-- `get_completions` of src/api/completions.py (lines 30-201).
`existing_config` is the outcome of lines 43-46 (see the module
comment): the parsed document, or `pydict []` on a blank document or a
parse failure. The returned list is the key phase followed by the value
phase, exactly as the source appends to one list. -/
def get_completions (line : String) (cursor_position : Int)
    (full_content : String) (line_number : Int)
    (existing_config : PyObj) : List Completion :=
  keyCompletions (leadingSpaces line) (textBeforeCursor line cursor_position)
      full_content line_number existing_config
    ++ valueCompletions (textBeforeCursor line cursor_position)

end CompletionsPy

namespace IndexPy

/-- The `server` block suggestion of the empty-prefix root branch
(index.py lines 215-224). -/
def serverBlockItem : Completion :=
  { label := "server", kind := "property",
    detail := "Server configuration block",
    insertText := "server:\n  host: \"127.0.0.1\"\n  port: 3000\n  use_ssl: true",
    documentation := "Configure the web server settings including host, port, and SSL" }

/-- The `logging` block suggestion of the empty-prefix root branch
(index.py lines 225-234). -/
def loggingBlockItem : Completion :=
  { label := "logging", kind := "property",
    detail := "Logging configuration block",
    insertText := "logging:\n  level: \"debug\"\n  file: \"./debug.log\"",
    documentation := "Configure logging settings including level and output file" }

/-- The `server` suggestion of the `startswith("s")` root branch
(index.py lines 235-244). -/
def serverBlockItemS : Completion :=
  { label := "server", kind := "property",
    detail := "Server configuration block",
    insertText := "server:\n  host: \"127.0.0.1\"\n  port: 3000\n  use_ssl: true",
    documentation := "Configure the web server settings" }

/-- The `logging` suggestion of the `startswith("l")` root branch
(index.py lines 245-254). -/
def loggingBlockItemL : Completion :=
  { label := "logging", kind := "property",
    detail := "Logging configuration block",
    insertText := "logging:\n  level: \"debug\"\n  file: \"./debug.log\"",
    documentation := "Configure logging settings" }

/-- The `host` suggestion (index.py lines 272-281). -/
def hostItem : Completion :=
  { label := "host", kind := "property",
    detail := "string - Hostname or IP address",
    insertText := "host: \"127.0.0.1\"",
    documentation := "The hostname or IP address to bind to" }

/-- The `port` suggestion (index.py lines 282-291). -/
def portItem : Completion :=
  { label := "port", kind := "property",
    detail := "integer - Port number",
    insertText := "port: 3000",
    documentation := "The port number (1-65535)" }

/-- The `use_ssl` suggestion (index.py lines 292-301). -/
def useSslItem : Completion :=
  { label := "use_ssl", kind := "property",
    detail := "boolean - Enable SSL",
    insertText := "use_ssl: true",
    documentation := "Whether to enable SSL/TLS encryption" }

/-- The `level` suggestion (index.py lines 307-316). -/
def levelItem : Completion :=
  { label := "level", kind := "property",
    detail := "enum - Log level",
    insertText := "level: \"debug\"",
    documentation := "Log level: debug, info, warn, error" }

/-- The `file` suggestion (index.py lines 317-326). -/
def fileItem : Completion :=
  { label := "file", kind := "property",
    detail := "string - Log file path",
    insertText := "file: \"./debug.log\"",
    documentation := "Path to the log output file" }

/-- The `true` value suggestion (index.py lines 335-341). -/
def trueItem : Completion :=
  { label := "true", kind := "value", detail := "Enable SSL",
    insertText := "true", documentation := "Enable SSL/TLS" }

/-- The `false` value suggestion (index.py lines 342-348). -/
def falseItem : Completion :=
  { label := "false", kind := "value", detail := "Disable SSL",
    insertText := "false", documentation := "Disable SSL/TLS" }

/-- One iteration of the loop over log levels (index.py lines 353-362). -/
def levelValueItem (level : String) : Completion :=
  { label := level, kind := "value",
    detail := "Log level: " ++ level,
    insertText := level,
    documentation := "Set logging level to " ++ level }

/-- The four value suggestions of the `level` branch
(index.py lines 352-362). -/
def levelItems : List Completion :=
  ["debug", "info", "warn", "error"].map levelValueItem

/-- Root-level branch, `leading_spaces == 0` (index.py lines 212-254). -/
def rootKeyCompletions (tbc : String) (existing_config : PyObj) : List Completion :=
  if tbc = "" then
    (if pyIn "server" (pyStrTop existing_config) then [] else [serverBlockItem]) ++
    (if pyIn "logging" (pyStrTop existing_config) then [] else [loggingBlockItem])
  else if pyStartsWith tbc "s" then [serverBlockItemS]
  else if pyStartsWith tbc "l" then [loggingBlockItemL]
  else []

/-- The loop over `server_keys` (index.py lines 269-301). -/
def serverChildCompletions (tbc : String) : List Completion :=
  (if tbc = "" || pyStartsWith "host" tbc then [hostItem] else []) ++
  (if tbc = "" || pyStartsWith "port" tbc then [portItem] else []) ++
  (if tbc = "" || pyStartsWith "use_ssl" tbc then [useSslItem] else [])

/-- The loop over `logging_keys` (index.py lines 304-326). -/
def loggingChildCompletions (tbc : String) : List Completion :=
  (if tbc = "" || pyStartsWith "level" tbc then [levelItem] else []) ++
  (if tbc = "" || pyStartsWith "file" tbc then [fileItem] else [])

/-- The backward scan of index.py lines 261-266, over the indices
admitted by its `i < len(lines)` guard. -/
def scanParent (lines : List String) : Nat → Option String
  | 0 => Option.none
  | i + 1 =>
    if lines.getD i "" ≠ "" && !(pyStartsWith (lines.getD i "") " ")
        && pyIn ":" (lines.getD i "") then
      Option.some (pyStrip (beforeFirst ':' (lines.getD i "")))
    else scanParent lines i

/-- `parent_key` as computed at index.py lines 259-266. -/
def parentKey (full_content : String) (line_number : Int) : Option String :=
  scanParent (pySplit '\n' full_content)
    (min line_number ((pySplit '\n' full_content).length : Int)).toNat

/-- The key-suggestion phase (index.py lines 211-326). -/
def keyCompletions (lead : Nat) (tbc : String) (full_content : String)
    (line_number : Int) (existing_config : PyObj) : List Completion :=
  if lead = 0 then rootKeyCompletions tbc existing_config
  else if lead = 2 then
    match parentKey full_content line_number with
    | Option.some k =>
      if k = "server" then serverChildCompletions tbc
      else if k = "logging" then loggingChildCompletions tbc
      else []
    | Option.none => []
  else []

/-- `key = text_before_cursor.split(":")[0].strip()` (index.py line 330). -/
def splitKey (tbc : String) : String :=
  pyStrip (beforeFirst ':' tbc)

/-- The value-suggestion phase (index.py lines 329-362). -/
def valueCompletions (tbc : String) : List Completion :=
  if pyIn ":" tbc then
    if splitKey tbc = "use_ssl" then [trueItem, falseItem]
    else if splitKey tbc = "level" then levelItems
    else []
  else []

/-- `get_completions` of src/api/index.py (lines 193-364), a verbatim
duplicate of the one in completions.py up to its exception clause
(bare `except:` at line 208 instead of `except Exception:`); both map a
parse failure to `existing_config = ` Python `\x7b\x7d`, which is how
`existing_config` is supplied here. -/
def get_completions (line : String) (cursor_position : Int)
    (full_content : String) (line_number : Int)
    (existing_config : PyObj) : List Completion :=
  keyCompletions (leadingSpaces line) (textBeforeCursor line cursor_position)
      full_content line_number existing_config
    ++ valueCompletions (textBeforeCursor line cursor_position)

end IndexPy
section Helpers

/-- A slice end at or beyond the length clamps to the length. -/
theorem pyClampTo_of_le (n : Nat) (c : Int) (h : (n : Int) ≤ c) : pyClampTo n c = n := by
  unfold pyClampTo
  rw [if_neg (by omega : ¬ c < 0)]
  omega

/-- Python `s[:c]` is all of `s` once `c` reaches the length. -/
theorem pySliceTo_of_le (s : String) (c : Int) (h : (s.length : Int) ≤ c) :
    pySliceTo s c = s := by
  obtain ⟨l⟩ := s
  unfold pySliceTo
  rw [pyClampTo_of_le _ _ h]
  show String.mk (l.take (String.mk l).length) = String.mk l
  rw [show (String.mk l).length = l.length from rfl, List.take_length]

/-- A string that contains a colon as a substring has a colon among its
characters. -/
theorem mem_of_subList_colon (l : List Char) (h : subList [':'] l = true) : ':' ∈ l := by
  induction l with
  | nil => simp [subList, List.isEmpty] at h
  | cons c rest ih =>
    unfold subList at h
    rcases Bool.or_eq_true_iff.mp h with hp | hr
    · have : ':' = c := by simpa [List.isPrefixOf] using hp
      exact this ▸ List.mem_cons_self _ _
    · exact List.mem_cons_of_mem _ (ih hr)

/-- A colon-free string never starts with a colon-containing one. -/
theorem pyStartsWith_false_of_colon (s t : String) (hs : ':' ∉ s.data)
    (ht : pyIn ":" t = true) : pyStartsWith s t = false := by
  cases hb : pyStartsWith s t with
  | false => rfl
  | true =>
    exfalso
    have hpre : t.data <+: s.data := by
      have := hb
      unfold pyStartsWith at this
      exact List.isPrefixOf_iff_prefix.mp this
    exact hs (hpre.subset (mem_of_subList_colon t.data ht))

/-- A colon-containing prefix is non-empty. -/
theorem ne_empty_of_pyIn_colon (t : String) (ht : pyIn ":" t = true) : t ≠ "" := by
  intro he
  rw [he] at ht
  simp [pyIn, subList, List.isEmpty] at ht

end Helpers

namespace CompletionsPy

/-- When the typed prefix contains a colon, no `server` child key
matches it as a prefix, so the server child loop yields nothing. -/
theorem serverChild_nil_of_colon (tbc : String) (h : pyIn ":" tbc = true) :
    serverChildCompletions tbc = [] := by
  have hne : tbc ≠ "" := ne_empty_of_pyIn_colon tbc h
  unfold serverChildCompletions
  simp [hne, pyStartsWith_false_of_colon "host" tbc (by decide) h,
    pyStartsWith_false_of_colon "port" tbc (by decide) h,
    pyStartsWith_false_of_colon "use_ssl" tbc (by decide) h]

/-- As above for the `logging` child loop. -/
theorem loggingChild_nil_of_colon (tbc : String) (h : pyIn ":" tbc = true) :
    loggingChildCompletions tbc = [] := by
  have hne : tbc ≠ "" := ne_empty_of_pyIn_colon tbc h
  unfold loggingChildCompletions
  simp [hne, pyStartsWith_false_of_colon "level" tbc (by decide) h,
    pyStartsWith_false_of_colon "file" tbc (by decide) h]

/-- At `leading_spaces = 0` the key phase is the root branch. -/
theorem keyCompletions_zero (tbc : String) (fc : String) (ln : Int) (cfg : PyObj) :
    keyCompletions 0 tbc fc ln cfg = rootKeyCompletions tbc cfg := by
  simp [keyCompletions]

/-- Away from the root, a colon-containing typed prefix produces no key
suggestions at all. -/
theorem keyCompletions_nil_of_colon (lead : Nat) (tbc : String) (fc : String)
    (ln : Int) (cfg : PyObj) (h0 : lead ≠ 0) (hc : pyIn ":" tbc = true) :
    keyCompletions lead tbc fc ln cfg = [] := by
  unfold keyCompletions
  rw [if_neg h0]
  by_cases h2 : lead = 2
  · rw [if_pos h2]
    cases hp : parentKey fc ln with
    | none => rfl
    | some k =>
      show (if k = "server" then serverChildCompletions tbc
            else if k = "logging" then loggingChildCompletions tbc else []) = []
      by_cases hk : k = "server"
      · rw [if_pos hk]
        exact serverChild_nil_of_colon tbc hc
      · rw [if_neg hk]
        by_cases hk2 : k = "logging"
        · rw [if_pos hk2]
          exact loggingChild_nil_of_colon tbc hc
        · rw [if_neg hk2]
  · rw [if_neg h2]

/-- Every suggestion of the root branch is a key (`property`) item. -/
theorem rootKey_all_property (tbc : String) (cfg : PyObj) :
    (rootKeyCompletions tbc cfg).all (fun c => c.kind == "property") = true := by
  unfold rootKeyCompletions
  split
  · simp only [List.all_append, Bool.and_eq_true]
    constructor <;> split <;> decide
  · split
    · decide
    · split
      · decide
      · rfl

/-- Every suggestion of the key phase is a key (`property`) item. -/
theorem keyCompletions_all_property (lead : Nat) (tbc : String) (fc : String)
    (ln : Int) (cfg : PyObj) :
    (keyCompletions lead tbc fc ln cfg).all (fun c => c.kind == "property") = true := by
  unfold keyCompletions
  split
  · exact rootKey_all_property tbc cfg
  · split
    · split
      · split
        · unfold serverChildCompletions
          simp only [List.all_append, Bool.and_eq_true]
          refine ⟨⟨?_, ?_⟩, ?_⟩ <;> split <;> decide
        · split
          · unfold loggingChildCompletions
            simp only [List.all_append, Bool.and_eq_true]
            constructor <;> split <;> decide
          · rfl
      · rfl
    · rfl

/-- Every suggestion of the value phase is a `value` item. -/
theorem valueCompletions_all_value (tbc : String) :
    (valueCompletions tbc).all (fun c => c.kind == "value") = true := by
  unfold valueCompletions
  split
  · split
    · decide
    · split
      · decide
      · rfl
  · rfl

end CompletionsPy

/-- A list of `property` items has no `value` items. -/
theorem filter_value_nil (l : List Completion)
    (h : l.all (fun c => c.kind == "property") = true) :
    l.filter (fun c => c.kind == "value") = [] := by
  induction l with
  | nil => rfl
  | cons c cs ih =>
    simp only [List.all_cons, Bool.and_eq_true, beq_iff_eq] at h
    rw [List.filter_cons, if_neg (by simp [h.1]), ih h.2]

/-- A list of `value` items is fixed by the `value` filter. -/
theorem filter_value_self (l : List Completion)
    (h : l.all (fun c => c.kind == "value") = true) :
    l.filter (fun c => c.kind == "value") = l := by
  induction l with
  | nil => rfl
  | cons c cs ih =>
    simp only [List.all_cons, Bool.and_eq_true, beq_iff_eq] at h
    rw [List.filter_cons, if_pos (by simp [h.1]), ih h.2]

/-- A list of `value` items has no `property` items. -/
theorem filter_property_nil (l : List Completion)
    (h : l.all (fun c => c.kind == "value") = true) :
    l.filter (fun c => c.kind == "property") = [] := by
  induction l with
  | nil => rfl
  | cons c cs ih =>
    simp only [List.all_cons, Bool.and_eq_true, beq_iff_eq] at h
    rw [List.filter_cons, if_neg (by simp [h.1]), ih h.2]

/-- The key names present at the root of a parsed document: the notion
of root-level existing keys that the specification's Existing-Keys
Filter describes (`computeExistingKeys`); stated from the spec's words
in order to compare it with what the code actually tests. -/
def rootKeys : PyObj → List String
  | .pydict kvs => kvs.map Prod.fst
  | _ => []

/-- C1 counterexample: for the document `"servers: a"`, which parses to
the dict with single root key `servers`, the code suppresses the
`server` suggestion (because `"server"` is a substring of
`str(existing_config) = "\x7b'servers': 'a'\x7d"`) although no root key
named `server` exists, so suppression is not equivalent to root-key
membership. -/
theorem c1_root_suppression_cex :
    labels (CompletionsPy.get_completions "" 0 "servers: a" 1
        (PyObj.pydict [("servers", PyObj.pystr "a")])) = ["logging"]
    ∧ "server" ∉ rootKeys (PyObj.pydict [("servers", PyObj.pystr "a")]) := by
  decide

/-- C1 (amended): at depth 0 with an empty typed prefix, the candidates
are exactly the root schema keys `server` and `logging`, in that order,
minus precisely those whose NAME OCCURS AS A SUBSTRING of the Python
string representation of the parsed document (not: those present as
root keys); an empty document (`existing_config = ` Python dict
`\x7b\x7d`) suppresses neither. -/
theorem c1_root_suppression (line : String) (cursor : Int) (content : String)
    (ln : Int) (cfg : PyObj)
    (h0 : leadingSpaces line = 0) (h1 : textBeforeCursor line cursor = "") :
    labels (CompletionsPy.get_completions line cursor content ln cfg) =
      ["server", "logging"].filter (fun k => !(pyIn k (pyStrTop cfg))) := by
  unfold CompletionsPy.get_completions
  rw [h0, h1, CompletionsPy.keyCompletions_zero,
    (by decide : CompletionsPy.valueCompletions "" = []), List.append_nil]
  unfold CompletionsPy.rootKeyCompletions
  rw [if_pos rfl]
  cases hs : pyIn "server" (pyStrTop cfg) <;>
    cases hl : pyIn "logging" (pyStrTop cfg) <;>
      simp [labels, List.filter_cons, hs, hl,
        CompletionsPy.serverBlockItem, CompletionsPy.loggingBlockItem]

/-- C1 witness: on the empty document both root keys are offered. -/
theorem c1_root_suppression_wit :
    labels (CompletionsPy.get_completions "" 0 "" 0 (PyObj.pydict []))
      = ["server", "logging"].filter (fun k => !(pyIn k (pyStrTop (PyObj.pydict [])))) :=
  c1_root_suppression "" 0 "" 0 (PyObj.pydict []) (by decide) (by decide)

/-- C2 counterexample: at depth 0, the typed prefix `sx` is not a prefix
of `server` (nor of `logging`), so the claim demands no key candidate;
the code tests only `startswith("s")` and returns the `server`
candidate. -/
theorem c2_first_letter_cex :
    CompletionsPy.get_completions "sx" 2 "" 0 (PyObj.pydict [])
        = [CompletionsPy.serverBlockItemS]
    ∧ pyStartsWith "server" "sx" = false := by
  decide

/-- C2 (amended): at depth 0 with a non-empty typed prefix that contains
no `:`, the result is decided by the FIRST LETTER of the prefix alone,
not by prefix matching against the key names: a prefix starting with
`s` yields exactly the `server` candidate, otherwise one starting with
`l` yields exactly the `logging` candidate, and any other prefix yields
nothing. This agrees with the claim when the prefix really is a prefix
of `server` or `logging`, and differs on prefixes such as `sx`. -/
theorem c2_first_letter (line : String) (cursor : Int) (content : String)
    (ln : Int) (cfg : PyObj)
    (h0 : leadingSpaces line = 0) (h1 : textBeforeCursor line cursor ≠ "")
    (h2 : pyIn ":" (textBeforeCursor line cursor) = false) :
    CompletionsPy.get_completions line cursor content ln cfg =
      (if pyStartsWith (textBeforeCursor line cursor) "s"
          then [CompletionsPy.serverBlockItemS]
       else if pyStartsWith (textBeforeCursor line cursor) "l"
          then [CompletionsPy.loggingBlockItemL]
       else []) := by
  unfold CompletionsPy.get_completions
  rw [h0, CompletionsPy.keyCompletions_zero]
  unfold CompletionsPy.rootKeyCompletions CompletionsPy.valueCompletions
  rw [if_neg h1, h2]
  simp

/-- C2 witness: prefix `s` yields the `server` candidate. -/
theorem c2_first_letter_wit :
    CompletionsPy.get_completions "s" 1 "" 0 (PyObj.pydict []) =
      (if pyStartsWith (textBeforeCursor "s" 1) "s"
          then [CompletionsPy.serverBlockItemS]
       else if pyStartsWith (textBeforeCursor "s" 1) "l"
          then [CompletionsPy.loggingBlockItemL]
       else []) :=
  c2_first_letter "s" 1 "" 0 (PyObj.pydict []) (by decide) (by decide) (by decide)

/-- C5 counterexample: a line with exactly one leading space on an empty
document with an empty typed prefix returns nothing, although the claim
(leading width divided by 2, truncated, so depth 0) demands the root
key candidates `server` and `logging`. -/
theorem c5_exact_depth_cex :
    CompletionsPy.get_completions " " 1 "" 0 (PyObj.pydict []) = []
    ∧ leadingSpaces " " = 1 := by
  decide

/-- C5 (amended): the code does not divide the leading-whitespace width
by an indent unit; it matches exact widths only (0 for the root branch,
2 for the child branch). A line whose leading width is neither 0 nor 2
- e.g. 1 or 3 leading spaces - takes neither branch and gets no key
candidates at all, only the value phase; ragged indentation still
raises no error. -/
theorem c5_exact_depth (line : String) (cursor : Int) (content : String)
    (ln : Int) (cfg : PyObj)
    (h0 : leadingSpaces line ≠ 0) (h2 : leadingSpaces line ≠ 2) :
    CompletionsPy.get_completions line cursor content ln cfg
      = CompletionsPy.valueCompletions (textBeforeCursor line cursor) := by
  unfold CompletionsPy.get_completions CompletionsPy.keyCompletions
  rw [if_neg h0, if_neg h2]
  simp

/-- C5 witness: three leading spaces, value phase only. -/
theorem c5_exact_depth_wit :
    CompletionsPy.get_completions "   use_ssl: " 12 "server:\n   use_ssl: " 1
        (PyObj.pydict [])
      = CompletionsPy.valueCompletions (textBeforeCursor "   use_ssl: " 12) :=
  c5_exact_depth "   use_ssl: " 12 "server:\n   use_ssl: " 1 (PyObj.pydict [])
    (by decide) (by decide)

/-- C9: the embedded completion function is a pure function of its four
request fields and the parse outcome: the source reads no module or
process state in `get_completions` (the parse of `full_content` is the
only external call, and its outcome is the `existing_config` input
here), so identical inputs yield identical candidate sequences. -/
theorem c9_deterministic (line : String) (cursor : Int) (content : String)
    (ln : Int) (cfg : PyObj) :
    CompletionsPy.get_completions line cursor content ln cfg
      = CompletionsPy.get_completions line cursor content ln cfg := rfl

/-- C10: a cursor at or beyond the end of the line behaves exactly like
the cursor at the line's length: `line[:c]` is the whole line in both
cases, and the cursor enters the computation only through that slice. -/
theorem c10_cursor_clamp (line : String) (c : Int) (content : String)
    (ln : Int) (cfg : PyObj) (h : (line.length : Int) ≤ c) :
    CompletionsPy.get_completions line c content ln cfg
      = CompletionsPy.get_completions line (line.length : Int) content ln cfg := by
  unfold CompletionsPy.get_completions textBeforeCursor
  rw [pySliceTo_of_le line c h, pySliceTo_of_le line (line.length : Int) (le_refl _)]

/-- C10 witness: cursor 7 on the two-character line `ab` equals cursor
2. -/
theorem c10_cursor_clamp_wit :
    CompletionsPy.get_completions "ab" 7 "" 0 (PyObj.pydict [])
      = CompletionsPy.get_completions "ab" (("ab".length : Nat) : Int) "" 0 (PyObj.pydict []) :=
  c10_cursor_clamp "ab" 7 "" 0 (PyObj.pydict []) (by decide)

/-- C3 counterexample: for the unindented line `level:` (typed text up
to the cursor `level:`), the result is NOT four value candidates: the
root branch fires first because `"level:".startswith("l")`, so a fifth
candidate - the `logging` KEY candidate - precedes the four values. -/
theorem c3_value_position_cex :
    (CompletionsPy.get_completions "level:" 6 "" 0 (PyObj.pydict [])).map
        Completion.kind
      = ["property", "value", "value", "value", "value"]
    ∧ labels (CompletionsPy.get_completions "level:" 6 "" 0 (PyObj.pydict []))
      = ["logging", "debug", "info", "warn", "error"] := by
  decide

/-- C3 (amended): when the typed prefix contains a `:` AND the line has
non-zero leading whitespace, every returned candidate is a value
candidate, and a typed text of exactly `level:` returns exactly the
four value candidates `debug`, `info`, `warn`, `error` in that fixed
order. (At zero indentation the root key branch can additionally fire
on the first letter of the typed text, as the counterexample shows, so
"regardless of the line's indentation" does not hold.) -/
theorem c3_value_position (line : String) (cursor : Int) (content : String)
    (ln : Int) (cfg : PyObj)
    (h0 : leadingSpaces line ≠ 0)
    (hc : pyIn ":" (textBeforeCursor line cursor) = true) :
    ((CompletionsPy.get_completions line cursor content ln cfg).all
        (fun c => c.kind == "value") = true)
    ∧ (textBeforeCursor line cursor = "level:" →
        CompletionsPy.get_completions line cursor content ln cfg
          = CompletionsPy.levelItems) := by
  constructor
  · unfold CompletionsPy.get_completions
    rw [CompletionsPy.keyCompletions_nil_of_colon _ _ _ _ _ h0 hc, List.nil_append]
    exact CompletionsPy.valueCompletions_all_value _
  · intro hl
    unfold CompletionsPy.get_completions
    rw [CompletionsPy.keyCompletions_nil_of_colon _ _ _ _ _ h0 hc, List.nil_append, hl]
    decide

/-- C3 witness: `level:` at two leading spaces under `logging`. -/
theorem c3_value_position_wit :
    ((CompletionsPy.get_completions "  level:" 8 "logging:\n  level:" 1
        (PyObj.pydict [])).all (fun c => c.kind == "value") = true)
    ∧ (textBeforeCursor "  level:" 8 = "level:" →
        CompletionsPy.get_completions "  level:" 8 "logging:\n  level:" 1
            (PyObj.pydict [])
          = CompletionsPy.levelItems) :=
  c3_value_position "  level:" 8 "logging:\n  level:" 1 (PyObj.pydict [])
    (by decide) (by decide)

/-- C4 counterexample: the line `  use_ssl:` under parent `logging`
(document `logging:\n  use_ssl: x`) is a value position whose schema
path `logging.use_ssl` does not exist, so the claim demands no value
candidates; the code ignores the parent entirely and returns `true`,
`false`. -/
theorem c4_value_domain_cex :
    CompletionsPy.get_completions "  use_ssl:" 10 "logging:\n  use_ssl: x" 1
        (PyObj.pydict [("logging", PyObj.pydict [("use_ssl", PyObj.pystr "x")])])
      = [CompletionsPy.trueItem, CompletionsPy.falseItem]
    ∧ CompletionsPy.parentKey "logging:\n  use_ssl: x" 1 = Option.some "logging" := by
  decide

/-- C4 (amended): in value position the value domain is resolved from
the extracted key ALONE (`typedPrefix` up to the first `:`, trimmed),
ignoring the enclosing parent path: key `use_ssl` yields exactly
`true` then `false`, key `level` yields exactly `debug`, `info`,
`warn`, `error` in declaration order, and any other key yields no
value candidates; in particular `use_ssl` under any parent, including
`logging`, still yields `true`, `false`. -/
theorem c4_value_domain (line : String) (cursor : Int) (content : String)
    (ln : Int) (cfg : PyObj)
    (hc : pyIn ":" (textBeforeCursor line cursor) = true) :
    (CompletionsPy.get_completions line cursor content ln cfg).filter
        (fun c => c.kind == "value")
      = (if CompletionsPy.splitKey (textBeforeCursor line cursor) = "use_ssl"
            then [CompletionsPy.trueItem, CompletionsPy.falseItem]
         else if CompletionsPy.splitKey (textBeforeCursor line cursor) = "level"
            then CompletionsPy.levelItems
         else []) := by
  unfold CompletionsPy.get_completions
  rw [List.filter_append,
    filter_value_nil _ (CompletionsPy.keyCompletions_all_property _ _ _ _ _),
    filter_value_self _ (CompletionsPy.valueCompletions_all_value _),
    List.nil_append]
  unfold CompletionsPy.valueCompletions
  rw [if_pos hc]

/-- C4 witness: the counterexample input, through the amended
statement. -/
theorem c4_value_domain_wit :
    (CompletionsPy.get_completions "  use_ssl:" 10 "logging:\n  use_ssl: x" 1
        (PyObj.pydict [("logging", PyObj.pydict [("use_ssl", PyObj.pystr "x")])])).filter
        (fun c => c.kind == "value")
      = (if CompletionsPy.splitKey (textBeforeCursor "  use_ssl:" 10) = "use_ssl"
            then [CompletionsPy.trueItem, CompletionsPy.falseItem]
         else if CompletionsPy.splitKey (textBeforeCursor "  use_ssl:" 10) = "level"
            then CompletionsPy.levelItems
         else []) :=
  c4_value_domain "  use_ssl:" 10 "logging:\n  use_ssl: x" 1
    (PyObj.pydict [("logging", PyObj.pydict [("use_ssl", PyObj.pystr "x")])]) (by decide)

/-- C6 counterexample: in the document `logging: x\n\tserver: s\n`, the
nearest line above line 2 with ZERO LEADING WHITESPACE and a `:` is
`logging: x` (the tab-indented `\tserver: s` has leading whitespace),
so by the claim the parent is `logging` and the prefix `f` must yield
exactly the `file` candidate; the code's scan tests only
`startswith(" ")`, accepts the tab-indented line, resolves the parent
to `server`, and returns nothing. -/
theorem c6_parent_scan_cex :
    CompletionsPy.get_completions "  f" 3 "logging: x\n\tserver: s\n" 2
        (PyObj.pydict []) = []
    ∧ CompletionsPy.parentKey "logging: x\n\tserver: s\n" 2 = Option.some "server"
    ∧ leadingSpaces "\tserver: s" = 1
    ∧ leadingSpaces "logging: x" = 0 ∧ pyIn ":" "logging: x" = true := by
  decide

/-- C6 (amended): for a line with leading-whitespace width exactly 2,
the enclosing parent key is the key (text before the first `:`,
trimmed) of the nearest line strictly above `lineNumber` that is
non-empty, DOES NOT START WITH A SPACE CHARACTER (a tab-indented line
counts as unindented), and contains `:`. When that parent is `server`
and the typed prefix is empty the result is exactly `host`, `port`,
`use_ssl` in that order; when it is `logging` and the typed prefix is
`f` the result is exactly `file`; when no such line exists, no key
candidates are returned. -/
theorem c6_parent_scan (line : String) (cursor : Int) (content : String)
    (ln : Int) (cfg : PyObj) (h2 : leadingSpaces line = 2) :
    (CompletionsPy.parentKey content ln = Option.some "server" →
        textBeforeCursor line cursor = "" →
        CompletionsPy.get_completions line cursor content ln cfg
          = [CompletionsPy.hostItem, CompletionsPy.portItem, CompletionsPy.useSslItem])
    ∧ (CompletionsPy.parentKey content ln = Option.some "logging" →
        textBeforeCursor line cursor = "f" →
        CompletionsPy.get_completions line cursor content ln cfg
          = [CompletionsPy.fileItem])
    ∧ (CompletionsPy.parentKey content ln = Option.none →
        (CompletionsPy.get_completions line cursor content ln cfg).filter
            (fun c => c.kind == "property") = []) := by
  refine ⟨fun hp he => ?_, fun hp he => ?_, fun hp => ?_⟩
  · unfold CompletionsPy.get_completions CompletionsPy.keyCompletions
    rw [h2, he, hp]
    show CompletionsPy.serverChildCompletions "" ++ CompletionsPy.valueCompletions "" = _
    decide
  · unfold CompletionsPy.get_completions CompletionsPy.keyCompletions
    rw [h2, he, hp]
    show CompletionsPy.loggingChildCompletions "f" ++ CompletionsPy.valueCompletions "f" = _
    decide
  · unfold CompletionsPy.get_completions CompletionsPy.keyCompletions
    rw [h2, hp]
    simp only [List.filter_append]
    rw [filter_property_nil _ (CompletionsPy.valueCompletions_all_value _)]
    simp

/-- C6 witness: parent `server`, empty prefix, at line 1 of
`server:\n  `. -/
theorem c6_parent_scan_wit :
    CompletionsPy.get_completions "  " 2 "server:\n  " 1 (PyObj.pydict [])
      = [CompletionsPy.hostItem, CompletionsPy.portItem, CompletionsPy.useSslItem] :=
  (c6_parent_scan "  " 2 "server:\n  " 1 (PyObj.pydict []) (by decide)).1
    (by decide) (by decide)

/-- C7: the embedding of `get_completions` is total over every line
string, every integer cursor position, every document string and every
integer line number (each Python operation the source performs on them
- slicing with an arbitrary integer bound, stripping, splitting, the
`i < len(lines)` guarded backward scan - is modelled by a total
function, and the one fallible call, the YAML parse, is wrapped at
lines 43-46 so that failure only yields `existing_config = ` Python
dict `\x7b\x7d`). With that fallback in place of a parse result, a
depth-0 empty-prefix request still returns the unfiltered root
suggestions `server` and `logging`. -/
theorem c7_parse_failure_fallback (line : String) (cursor : Int)
    (content : String) (ln : Int)
    (h0 : leadingSpaces line = 0) (h1 : textBeforeCursor line cursor = "") :
    labels (CompletionsPy.get_completions line cursor content ln (PyObj.pydict []))
      = ["server", "logging"] := by
  unfold CompletionsPy.get_completions
  rw [h0, h1, CompletionsPy.keyCompletions_zero]
  decide

/-- C7 witness: a document that is not well-formed YAML (its parse
raises, so `existing_config` falls back to the empty dict) still
returns both root suggestions at a depth-0 empty-prefix request. -/
theorem c7_parse_failure_fallback_wit :
    labels (CompletionsPy.get_completions "" 0 ": : :" 0 (PyObj.pydict []))
      = ["server", "logging"] :=
  c7_parse_failure_fallback "" 0 ": : :" 0 (by decide) (by decide)

/-- The two duplicated backward scans agree (they are the same
recursion). -/
theorem scanParent_agree (lines : List String) (n : Nat) :
    CompletionsPy.scanParent lines n = IndexPy.scanParent lines n := by
  induction n with
  | zero => rfl
  | succ i ih =>
    unfold CompletionsPy.scanParent IndexPy.scanParent
    rw [ih]

/-- The two duplicated parent-key computations agree. -/
theorem parentKey_agree (fc : String) (ln : Int) :
    CompletionsPy.parentKey fc ln = IndexPy.parentKey fc ln := by
  unfold CompletionsPy.parentKey IndexPy.parentKey
  rw [scanParent_agree]

/-- C8: the two verbatim-duplicated implementations - `get_completions`
in completions.py and `get_completions` in index.py - are extensionally
equal: identical candidate lists for every line, cursor position,
document, line number and parse outcome. (Their only textual difference
is `except Exception:` versus a bare `except:`; both clauses map a
parse failure to the empty dict, which is how `existing_config` is
supplied to both embeddings.) -/
theorem c8_duplicates_agree (line : String) (cursor : Int) (content : String)
    (ln : Int) (cfg : PyObj) :
    CompletionsPy.get_completions line cursor content ln cfg
      = IndexPy.get_completions line cursor content ln cfg := by
  unfold CompletionsPy.get_completions IndexPy.get_completions
  unfold CompletionsPy.keyCompletions IndexPy.keyCompletions
  rw [parentKey_agree content ln]
  rfl
